import Mathlib

/-!
Verification development for the OpenClaw wrapper server
(`src/server.js` of dielect/OpenClaw-Polished).

The JavaScript source is shallowly embedded: pure helpers become Lean
functions on `List Char` / `String`, the supervisor's module-level mutable
state becomes an explicit state record with one transition function per
event handler, and the single-threaded event loop is reflected by treating
each synchronous prefix of a handler as one atomic step.  `Char` stands for
a Unicode code point (as produced by JavaScript `for (const ch of str)`);
case folding is modelled on the ASCII range, which is exact for every
string compared against here.
-/

namespace OpenClawWrapper

/-! ## Character classes (JavaScript regular-expression classes) -/

/-- JavaScript `\s` (whitespace) class, as used by `String.prototype.trim`,
`split(/\s+/)` and the `\S` class: tab, LF, VT, FF, CR, space, NBSP,
Ogham space, the U+2000–U+200A range, LS, PS, NNBSP, MMSP, ideographic
space and BOM. -/
def jsWhite (c : Char) : Bool :=
  c.toNat = 0x9 ∨ c.toNat = 0xa ∨ c.toNat = 0xb ∨ c.toNat = 0xc ∨
  c.toNat = 0xd ∨ c.toNat = 0x20 ∨ c.toNat = 0xa0 ∨ c.toNat = 0x1680 ∨
  (0x2000 ≤ c.toNat ∧ c.toNat ≤ 0x200a) ∨ c.toNat = 0x2028 ∨
  c.toNat = 0x2029 ∨ c.toNat = 0x202f ∨ c.toNat = 0x205f ∨
  c.toNat = 0x3000 ∨ c.toNat = 0xfeff

/-- ASCII lower-casing of one character (model of `toLowerCase` on the
ASCII range). -/
def lowerChar (c : Char) : Char :=
  if 0x41 ≤ c.toNat ∧ c.toNat ≤ 0x5a then Char.ofNat (c.toNat + 32) else c

/-- Lower-case a character list. -/
def lowerL (cs : List Char) : List Char := cs.map lowerChar

/-- Model of JavaScript `String.prototype.trim`: drop `\s` characters from
both ends. -/
def jsTrimL (cs : List Char) : List Char :=
  ((cs.dropWhile jsWhite).reverse.dropWhile jsWhite).reverse

/-- Split on runs of `\s` characters, dropping empty pieces: the token
list produced by `line.split(/\s+/)` on a trimmed line. -/
def wsTokens : List Char → List Char → List (List Char)
  | [], acc => if acc.isEmpty then [] else [acc.reverse]
  | c :: cs, acc =>
    if jsWhite c then
      if acc.isEmpty then wsTokens cs [] else acc.reverse :: wsTokens cs []
    else wsTokens cs (c :: acc)

/-! ## Restricted terminal (server.js lines 1563–1694)

`RESTRICTED_SHELL_UNSAFE = /[&|;`$(){}!<>\\#\n\r"']/` — the character
codes below are, in the regex's order: `&` `|` `;` backtick `$` `(` `)`
`{` `}` `!` `<` `>` backslash `#` LF CR double-quote single-quote. -/

/-- Code points of the restricted-terminal unsafe-character class. -/
def restrictedUnsafeCodes : List Nat :=
  [38, 124, 59, 96, 36, 40, 41, 123, 125, 33, 60, 62, 92, 35, 10, 13, 34, 39]

/-- Membership test of one character in `RESTRICTED_SHELL_UNSAFE`. -/
def restrictedUnsafeChar (c : Char) : Bool :=
  restrictedUnsafeCodes.contains c.toNat

/-- `RESTRICTED_SHELL_UNSAFE.test(line)`. -/
def containsRestrictedUnsafe (cs : List Char) : Bool :=
  cs.any restrictedUnsafeChar

/-- Outcome of processing one completed input line at the restricted
prompt (the `\r`/`\n` branch of the `message` handler). -/
inductive LineAction where
  /-- Empty line: just reprint the prompt. -/
  | prompt : LineAction
  /-- Rejected with "Only openclaw and gateway.* commands are allowed." -/
  | rejectNotAllowed : LineAction
  /-- Rejected with "Invalid characters detected. Shell operators are not
  allowed." -/
  | rejectUnsafe : LineAction
  /-- One of the three wrapper-managed pseudo-commands, run synchronously
  (`gateway.restart` / `gateway.stop` / `gateway.start`). -/
  | gatewayExec (cmd : String) : LineAction
  /-- Spawn a PTY running the openclaw CLI with these arguments
  (`parts.slice(1)`; the real call prepends the CLI entry file). -/
  | spawnPty (args : List (List Char)) : LineAction
deriving DecidableEq

/-- The three wrapper pseudo-commands recognised by
`/^gateway\.(restart|stop|start)$/` (the regex is anchored, so this is
exact string equality on the lower-cased first token). -/
def gatewayCmdNames : List (List Char) :=
  ["gateway.restart".data, "gateway.stop".data, "gateway.start".data]

/-- Token list of a line: `line.trim().split(/\s+/)`. -/
def lineTokens (raw : List Char) : List (List Char) :=
  wsTokens (jsTrimL raw) []

/-- The lower-cased first token (`parts[0].toLowerCase()`). -/
def lineBase (raw : List Char) : List Char :=
  lowerL ((lineTokens raw).headD [])

/-- The `isOpenclaw` test of line 1630: lower-cased first token equals
`openclaw` and there is at least one further token. -/
def lineIsOpenclaw (raw : List Char) : Prop :=
  lineBase raw = "openclaw".data ∧ 2 ≤ (lineTokens raw).length

instance (raw : List Char) : Decidable (lineIsOpenclaw raw) := by
  unfold lineIsOpenclaw; infer_instance

/-- The `isGatewayCmd` test of line 1631. -/
def lineIsGatewayCmd (raw : List Char) : Prop :=
  lineBase raw ∈ gatewayCmdNames

instance (raw : List Char) : Decidable (lineIsGatewayCmd raw) := by
  unfold lineIsGatewayCmd; infer_instance

/-- Processing of one completed restricted-terminal line, translated from
server.js lines 1620–1670: trim, split on whitespace, lower-case the first
token, allowlist check, unsafe-character check, then dispatch. -/
def processLine (raw : List Char) : LineAction :=
  if (jsTrimL raw).isEmpty then .prompt
  else if ¬lineIsOpenclaw raw ∧ ¬lineIsGatewayCmd raw then .rejectNotAllowed
  else if containsRestrictedUnsafe (jsTrimL raw) then .rejectUnsafe
  else if lineIsGatewayCmd raw then .gatewayExec (String.mk (lineBase raw))
  else .spawnPty (lineTokens raw).tail

/-- String-level wrapper around `processLine`. -/
def processLineS (raw : String) : LineAction := processLine raw.data

/-- Line-editing session state: the buffer being edited plus the history
of PTY spawns, gateway pseudo-commands and rejections this session
performed (recorded so "exactly one PTY subprocess" is expressible). -/
structure TermSt where
  buf : List Char
  spawns : List (List (List Char))
  gatewayRuns : List String
  rejects : Nat
deriving DecidableEq

/-- The initial session state: empty buffer, nothing spawned. -/
def initTermSt : TermSt := ⟨[], [], [], 0⟩

/-- Apply the `LineAction` of a submitted line to the session state (the
buffer has already been cleared by the caller). -/
def applyLineAction (st : TermSt) : LineAction → TermSt
  | .prompt => st
  | .rejectNotAllowed => { st with rejects := st.rejects + 1 }
  | .rejectUnsafe => { st with rejects := st.rejects + 1 }
  | .gatewayExec cmd => { st with gatewayRuns := st.gatewayRuns ++ [cmd] }
  | .spawnPty args => { st with spawns := st.spawns ++ [args] }

/-- One character of the line-editing loop (server.js lines 1619–1688):
CR/LF submit the buffered line; DEL/BS remove the last buffered character
(no-op when empty); Ctrl-C (0x03) and Ctrl-U (0x15) clear the buffer;
characters at or above the space character are appended; every other
character falls through all branches and is discarded. -/
def procEditChar (st : TermSt) (c : Char) : TermSt :=
  if c.toNat = 13 ∨ c.toNat = 10 then
    applyLineAction { st with buf := [] } (processLine st.buf)
  else if c.toNat = 127 ∨ c.toNat = 8 then
    { st with buf := st.buf.dropLast }
  else if c.toNat = 3 then
    { st with buf := [] }
  else if c.toNat = 21 then
    { st with buf := [] }
  else if 32 ≤ c.toNat then
    { st with buf := st.buf ++ [c] }
  else st

/-- Process a whole incoming terminal message in line-editing mode
(`for (const ch of str)` over the message). -/
def procEditString (st : TermSt) (msg : List Char) : TermSt :=
  msg.foldl procEditChar st

/-! ## Archive import path safety (server.js lines 1336–1345, 1393–1404) -/

/-- Model of the `/^[A-Za-z]:[\\/]/` Windows-drive-letter test. -/
def winDrive (p : List Char) : Bool :=
  match p with
  | a :: b :: c :: _ =>
    ((0x41 ≤ a.toNat ∧ a.toNat ≤ 0x5a) ∨ (0x61 ≤ a.toNat ∧ a.toNat ≤ 0x7a)) ∧
    b.toNat = 58 ∧ (c.toNat = 92 ∨ c.toNat = 47)
  | _ => false

/-- Split a character list at every slash (model of `p.split("/")`). -/
def splitSlash : List Char → List Char → List (List Char)
  | [], acc => [acc.reverse]
  | c :: cs, acc =>
    if c.toNat = 47 then acc.reverse :: splitSlash cs []
    else splitSlash cs (c :: acc)

/-- `looksSafeTarPath` from server.js: non-empty, does not start with `/`
(code 47) or a backslash (code 92), is not a Windows drive path, and no
`/`-separated segment equals `..`. -/
def looksSafeTarPath (p : List Char) : Bool :=
  if p.isEmpty then false
  else if (p.headD ' ').toNat = 47 ∨ (p.headD ' ').toNat = 92 then false
  else if winDrive p then false
  else if "..".data ∈ splitSlash p [] then false
  else true

/-- String-level wrapper around `looksSafeTarPath`. -/
def looksSafeTarPathS (p : String) : Bool := looksSafeTarPath p.data

/-- The tar extraction of `/setup/import` runs with
`filter: (p) => looksSafeTarPath(p)`; per the node-tar contract an entry
whose filter returns false is skipped and extraction continues, so the
set of written entries is exactly the filter-accepted subset and the
extraction itself succeeds. -/
def importWritten (entries : List String) : List String :=
  entries.filter looksSafeTarPathS

/-- Result of the whole extraction: always succeeds with the written
list; filtered entries only shrink the list, they never fail it. -/
def importExtract (entries : List String) : Except String (List String) :=
  .ok (importWritten entries)

/-- Spec-side unsafety predicate, following the words of the claim: the
path begins with `/` (code 47) or a backslash (code 92) or a Windows
drive prefix, or contains a `..` segment (with `/` the separator, as in
tar paths). -/
def specUnsafeTarPath (p : String) : Prop :=
  (p.data.headD ' ').toNat = 47 ∨ (p.data.headD ' ').toNat = 92 ∨
  winDrive p.data = true ∨ "..".data ∈ splitSlash p.data []

instance (p : String) : Decidable (specUnsafeTarPath p) := by
  unfold specUnsafeTarPath; infer_instance

/-! ## Lifecycle supervisor state (server.js lines 121–392)

The module-level mutable variables `gatewayProc`, `gatewayStarting`,
`_gatewayReady`, `_intentionalKill`, `_restartTimer`, `_restartAttempts`
and `lastGatewayExit` become one state record.  `starting` carries the
identity (a serial number) of the in-flight start attempt so that
"all callers await the same attempt" is expressible; `spawnCount` counts
`childProcess.spawn` calls for the gateway.  The event loop is
single-threaded, so every synchronous prefix of a handler is one atomic
transition. -/

/-- Supervisor state. -/
structure SupSt where
  /-- Whether a config file exists (`isConfigured()`), constant during the
  scenarios modelled here. -/
  configured : Bool
  /-- `gatewayProc !== null`. -/
  proc : Bool
  /-- `_gatewayReady`. -/
  ready : Bool
  /-- `gatewayStarting`, as the serial number of the in-flight attempt. -/
  starting : Option Nat
  /-- Serial number for the next start attempt. -/
  nextAttempt : Nat
  /-- Number of gateway subprocesses spawned so far. -/
  spawnCount : Nat
  /-- `_intentionalKill`. -/
  intentionalKill : Bool
  /-- `_restartTimer !== null`. -/
  restartTimer : Bool
  /-- `_restartAttempts`. -/
  restartAttempts : Nat
  /-- `lastGatewayExit` as `(code, signal)`. -/
  lastExit : Option (Option Int × Option String)
deriving DecidableEq

/-- `RESTART_BASE_DELAY_MS`. -/
def RESTART_BASE_DELAY_MS : Nat := 2000

/-- `RESTART_MAX_DELAY_MS`. -/
def RESTART_MAX_DELAY_MS : Nat := 60000

/-- `RESTART_MAX_ATTEMPTS`. -/
def RESTART_MAX_ATTEMPTS : Nat := 10

/-- The backoff delay computed at `scheduleGatewayRestart` for a given
attempt counter: `Math.min(base * 2 ** attempts, max)`. -/
def restartDelay (attempts : Nat) : Nat :=
  min (RESTART_BASE_DELAY_MS * 2 ^ attempts) RESTART_MAX_DELAY_MS

/-- `scheduleGatewayRestart` (lines 139–160): a no-op while a timer is
already pending or once `attempts ≥ maxAttempts`; otherwise arms the
timer, increments the counter and returns the delay used. -/
def scheduleGatewayRestart (s : SupSt) : SupSt × Option Nat :=
  if s.restartTimer then (s, none)
  else if RESTART_MAX_ATTEMPTS ≤ s.restartAttempts then (s, none)
  else ({ s with restartTimer := true,
                 restartAttempts := s.restartAttempts + 1 },
        some (restartDelay s.restartAttempts))

/-- The `gatewayProc.on("exit")` handler (lines 278–292).  Records
`lastExit`, clears the process handle and the ready flag, and requests a
restart exactly when the exit was unexpected: still configured, signal is
not SIGTERM, code is not 0, and no intentional kill is in progress.  The
returned Bool reports whether `scheduleGatewayRestart` was invoked. -/
def gatewayExitHandler (code : Option Int) (signal : Option String)
    (s : SupSt) : SupSt × Bool :=
  if s.configured ∧ signal ≠ some "SIGTERM" ∧ code ≠ some 0 ∧
     s.intentionalKill = false then
    ((scheduleGatewayRestart
        { s with proc := false, ready := false,
                 lastExit := some (code, signal) }).1, true)
  else ({ s with proc := false, ready := false,
                 lastExit := some (code, signal) }, false)

/-- Firing of the pending auto-restart timer (lines 148–159): the timer
handle is cleared, `ensureGatewayRunning` is awaited, and only on its
success is the backoff counter reset (with the gateway then running and
ready). -/
def restartTimerFire (ensureOk : Bool) (s : SupSt) : SupSt :=
  if ensureOk then
    { s with restartTimer := false, proc := true, ready := true,
             restartAttempts := 0 }
  else { s with restartTimer := false }

/-- The direct success path of `ensureGatewayRunning` (line 340):
`_gatewayReady = true` is set with no change to `_restartAttempts`. -/
def ensureDirectSuccess (s : SupSt) : SupSt :=
  { s with proc := true, ready := true }

/-- Completion of the background readiness probe started after a probe
timeout (lines 327–336): on success it sets the ready flag and resets the
backoff counter; on failure it changes nothing. -/
def bgProbeResult (ok : Bool) (s : SupSt) : SupSt :=
  if ok then { s with ready := true, restartAttempts := 0 } else s

/-- The synchronous prefix of `restartGateway` (lines 357–362): cancel any
pending auto-restart timer and reset the backoff counter. -/
def restartGatewayBegin (s : SupSt) : SupSt :=
  { s with restartTimer := false, restartAttempts := 0 }

/-- Result of one `ensureGatewayRunning` call as seen by its caller. -/
inductive EnsResult where
  /-- Resolved `ok: false, reason: "not configured"` without starting. -/
  | notConfigured : EnsResult
  /-- Fast path: process exists and is already ready. -/
  | alreadyOk : EnsResult
  /-- The caller awaits the in-flight start attempt with this serial
  number (either just created by this call or found in flight). -/
  | awaiting (attempt : Nat) : EnsResult
deriving DecidableEq

/-- The synchronous prefix of one `ensureGatewayRunning` call (lines
310–352).  If no attempt is in flight it creates one — running
`startGateway`, which spawns a process only when `gatewayProc` is null —
and then awaits it; if an attempt is already in flight the call awaits
that same attempt without touching anything. -/
def ensureStep (s : SupSt) : SupSt × EnsResult :=
  if ¬s.configured then (s, .notConfigured)
  else if s.proc ∧ s.ready then (s, .alreadyOk)
  else
    match s.starting with
    | some id => (s, .awaiting id)
    | none =>
      let newSpawns := if s.proc then 0 else 1
      ({ s with proc := true,
                starting := some s.nextAttempt,
                nextAttempt := s.nextAttempt + 1,
                spawnCount := s.spawnCount + newSpawns },
       .awaiting s.nextAttempt)

/-- `n` back-to-back `ensureGatewayRunning` calls, each running its
synchronous prefix atomically on the single-threaded event loop, with the
list of per-caller results. -/
def ensureN : Nat → SupSt → SupSt × List EnsResult
  | 0, s => (s, [])
  | n + 1, s =>
    let (s1, r) := ensureStep s
    let (s2, rs) := ensureN n s1
    (s2, r :: rs)

/-! ## Restart teardown (server.js lines 364–390) -/

/-- Outcome of the bounded wait for the killed process's exit. -/
inductive StopOutcome where
  /-- An `exit` event was observed `t` ms after the SIGTERM. -/
  | exitObserved (t : Nat) : StopOutcome
  /-- Neither the 5 s SIGTERM window nor the 3 s post-SIGKILL window saw
  an exit; the wait resolved anyway. -/
  | proceededWithoutExit : StopOutcome
deriving DecidableEq

/-- The `await new Promise(...)` of `restartGateway` (lines 373–387):
wait up to 5000 ms for exit after SIGTERM; at 5000 ms send SIGKILL and
wait up to 3000 ms more; then resolve regardless.  `exitTime` is the time
(ms after SIGTERM) at which the process actually exits, `none` when it
never does within these windows. -/
def awaitExitBounded (exitTime : Option Nat) : StopOutcome :=
  match exitTime with
  | none => .proceededWithoutExit
  | some t =>
    if t ≤ 5000 then .exitObserved t
    else if t ≤ 5000 + 3000 then .exitObserved t
    else .proceededWithoutExit

/-- State after the stop phase of `restartGateway`: when the exit was
observed, the exit handler ran (with `_intentionalKill = true`, so it
does not schedule a restart); either way the handle is nulled (line 388)
and the kill flag dropped (line 389).  Note the timeout path leaves
`_gatewayReady` untouched. -/
def restartStopState (stop : StopOutcome) (code : Option Int)
    (signal : Option String) (s1 : SupSt) : SupSt :=
  { (match stop with
     | .exitObserved _ =>
       (gatewayExitHandler code signal { s1 with intentionalKill := true }).1
     | .proceededWithoutExit => s1) with
    proc := false, intentionalKill := false }

/-- Whole-`restartGateway` model (lines 356–392): cancel the timer and
reset the counter; if a process exists, SIGTERM it, run the bounded exit
wait and apply the stop state; then call `ensureGatewayRunning`.
Returns the final state, the stop outcome (`none` when no process
existed) and the ensure result. -/
def restartGatewayModel (exitTime : Option Nat) (code : Option Int)
    (signal : Option String) (s0 : SupSt) :
    SupSt × Option StopOutcome × EnsResult :=
  if (restartGatewayBegin s0).proc then
    ((ensureStep (restartStopState (awaitExitBounded exitTime) code signal
        (restartGatewayBegin s0))).1,
     some (awaitExitBounded exitTime),
     (ensureStep (restartStopState (awaitExitBounded exitTime) code signal
        (restartGatewayBegin s0))).2)
  else
    ((ensureStep (restartGatewayBegin s0)).1, none,
     (ensureStep (restartGatewayBegin s0)).2)

/-! ## Readiness polling (server.js lines 166–186, 310–339) -/

/-- Outcome of `waitForGatewayReady`. -/
inductive WaitOutcome where
  /-- `gatewayProc` was null at the top of an iteration: fail fast. -/
  | died : WaitOutcome
  /-- A TCP probe succeeded. -/
  | ready : WaitOutcome
  /-- The deadline passed without success. -/
  | timedOut : WaitOutcome
deriving DecidableEq

/-- The polling loop of `waitForGatewayReady`, with time abstracted to
iteration indices: `alive i` is whether `gatewayProc` is non-null at the
top of iteration `i`, `probe i` the result of the TCP probe there, and
`fuel` the number of iterations the `timeoutMs` budget allows.  Returns
the outcome and the number of probes performed. -/
def waitLoop (alive probe : Nat → Bool) : Nat → Nat → WaitOutcome × Nat
  | 0, i => (.timedOut, i)
  | fuel + 1, i =>
    if ¬alive i then (.died, i)
    else if probe i then (.ready, i + 1)
    else waitLoop alive probe fuel (i + 1)

/-- The probe-timeout branch of `ensureGatewayRunning` (lines 320–338):
when `waitForGatewayReady` returns false and the process is still alive,
the process is left untouched and a background probe is started (returned
Bool); the attempt itself still fails by throwing. -/
def ensureTimeoutBranch (s : SupSt) : SupSt × Bool :=
  if s.proc then (s, true) else (s, false)

/-! ## Edge proxy (server.js lines 1456–1514, 1739–1769) -/

/-- Decision taken by the catch-all HTTP middleware. -/
inductive WebDecision where
  /-- `res.redirect("/setup")`. -/
  | redirectSetup : WebDecision
  /-- 503 with the structured troubleshooting text. -/
  | http503 : WebDecision
  /-- `proxy.web(...)`; the flag records whether an
  `ensureGatewayRunning` call was awaited (and resolved) first. -/
  | forwardToGateway (afterEnsure : Bool) : WebDecision
deriving DecidableEq

/-- The catch-all middleware (lines 1471–1513).  `setupPath` is
`req.path.startsWith("/setup")`; `ensureOk` is whether the awaited
`ensureGatewayRunning()` resolves rather than throws (only consulted when
it is actually called). -/
def proxyWebHandler (configured setupPath ready ensureOk : Bool) :
    WebDecision :=
  if ¬configured ∧ ¬setupPath then .redirectSetup
  else if configured ∧ ¬ready then
    if ensureOk then .forwardToGateway true else .http503
  else .forwardToGateway false

/-- Decision taken by the `upgrade` handler for non-terminal paths. -/
inductive UpgradeDecision where
  /-- `socket.destroy()`. -/
  | destroy : UpgradeDecision
  /-- `proxy.ws(...)`; the flag records whether `ensureGatewayRunning`
  was awaited (and resolved) first. -/
  | forwardWs (afterEnsure : Bool) : UpgradeDecision
deriving DecidableEq

/-- The WebSocket upgrade handler for gateway traffic (lines 1755–1768;
the `/setup/terminal` branch is handled separately and never reaches the
proxy). -/
def upgradeHandler (configured ready ensureOk : Bool) : UpgradeDecision :=
  if ¬configured then .destroy
  else if ¬ready then
    if ensureOk then .forwardWs true else .destroy
  else .forwardWs false

/-- Reply produced by the `proxy.on("error")` handler. -/
inductive ProxyErrReply where
  /-- `writeHead(502)` + a plain-text body. -/
  | resp502 : ProxyErrReply
  /-- `resOrSocket.destroy()`. -/
  | destroySocket : ProxyErrReply
deriving DecidableEq

/-- The proxy error handler (lines 1456–1469): an HTTP response that has
not yet sent headers gets a 502; anything else (a WS socket, or a
response already streaming) is destroyed.  Either way the client is
resolved, never left hanging. -/
def proxyErrorHandler (isHttpRes headersSent : Bool) : ProxyErrReply :=
  if isHttpRes ∧ ¬headersSent then .resp502 else .destroySocket

/-! ## Secret redaction and the debug console (server.js lines 986–1112,
1194–1201)

`redactSecrets` chains five global regex replacements.  Each pattern is a
literal prefix followed by greedy character-class runs whose following
literal (`:` or end) is outside the class, so leftmost maximal-munch
scanning reproduces the JavaScript engine exactly. -/

/-- ASCII letter or digit. -/
def isAlnumA (c : Char) : Bool :=
  (0x41 ≤ c.toNat ∧ c.toNat ≤ 0x5a) ∨ (0x61 ≤ c.toNat ∧ c.toNat ≤ 0x7a) ∨
  (0x30 ≤ c.toNat ∧ c.toNat ≤ 0x39)

/-- The class `[A-Za-z0-9_-]` (underscore 0x5f, hyphen 0x2d). -/
def classWordDash (c : Char) : Bool :=
  isAlnumA c ∨ c.toNat = 0x5f ∨ c.toNat = 0x2d

/-- The class `[A-Za-z0-9_]`. -/
def classWord (c : Char) : Bool := isAlnumA c ∨ c.toNat = 0x5f

/-- The class `[A-Za-z0-9-]`. -/
def classAlnumDash (c : Char) : Bool := isAlnumA c ∨ c.toNat = 0x2d

/-- ASCII digit. -/
def isDigitA (c : Char) : Bool := 0x30 ≤ c.toNat ∧ c.toNat ≤ 0x39

/-- JavaScript `\S`. -/
def jsNonSpace (c : Char) : Bool := ¬jsWhite c

/-- Length of the maximal prefix satisfying `p`. -/
def takeRun (p : Char → Bool) : List Char → Nat
  | [] => 0
  | c :: cs => if p c then takeRun p cs + 1 else 0

/-- Generic global replace, fuelled so the recursion is structural (one
fuel unit per consumed character; fuel equal to the input length is
always enough since every step consumes at least one character): scan
left to right; where the matcher returns a (positive) match length, emit
the replacement and resume after the match; otherwise keep the
character. -/
def replaceScanF (m : List Char → Option Nat) (repl : List Char) :
    Nat → List Char → List Char
  | 0, cs => cs
  | _ + 1, [] => []
  | fuel + 1, c :: cs =>
    match m (c :: cs) with
    | some n => repl ++ replaceScanF m repl fuel (cs.drop (n - 1))
    | none => c :: replaceScanF m repl fuel cs

/-- JavaScript `String.prototype.replace` with a `g`-flagged regex, for
the patterns at hand: leftmost, maximal-munch, non-overlapping. -/
def replaceScan (m : List Char → Option Nat) (repl : List Char)
    (cs : List Char) : List Char :=
  replaceScanF m repl cs.length cs

/-- Matcher for `sk-[A-Za-z0-9_-]{10,}`. -/
def mSk (cs : List Char) : Option Nat :=
  match cs with
  | 's' :: 'k' :: '-' :: rest =>
    let n := takeRun classWordDash rest
    if 10 ≤ n then some (3 + n) else none
  | _ => none

/-- Matcher for `gho_[A-Za-z0-9_]{10,}`. -/
def mGho (cs : List Char) : Option Nat :=
  match cs with
  | 'g' :: 'h' :: 'o' :: '_' :: rest =>
    let n := takeRun classWord rest
    if 10 ≤ n then some (4 + n) else none
  | _ => none

/-- Matcher for `xox[baprs]-[A-Za-z0-9-]{10,}`. -/
def mXox (cs : List Char) : Option Nat :=
  match cs with
  | 'x' :: 'o' :: 'x' :: k :: '-' :: rest =>
    if k = 'b' ∨ k = 'a' ∨ k = 'p' ∨ k = 'r' ∨ k = 's' then
      let n := takeRun classAlnumDash rest
      if 10 ≤ n then some (5 + n) else none
    else none
  | _ => none

/-- Matcher for the Telegram pattern `\d{5,}:[A-Za-z0-9_-]{10,}`. -/
def mTelegram (cs : List Char) : Option Nat :=
  let d := takeRun isDigitA cs
  if d < 5 then none
  else
    match cs.drop d with
    | ':' :: rest =>
      let n := takeRun classWordDash rest
      if 10 ≤ n then some (d + 1 + n) else none
    | _ => none

/-- Matcher for `AA[A-Za-z0-9_-]{10,}:\S{10,}`. -/
def mAA (cs : List Char) : Option Nat :=
  match cs with
  | 'A' :: 'A' :: rest =>
    let n := takeRun classWordDash rest
    if n < 10 then none
    else
      match rest.drop n with
      | ':' :: r2 =>
        let k := takeRun jsNonSpace r2
        if 10 ≤ k then some (2 + n + 1 + k) else none
      | _ => none
  | _ => none

/-- The replacement text. -/
def REDACTED : List Char := "[REDACTED]".data

/-- `redactSecrets` (lines 986–996): the five chained global replaces, in
source order. -/
def redactSecrets (s : String) : String :=
  let r1 := replaceScan mSk REDACTED s.data
  let r2 := replaceScan mGho REDACTED r1
  let r3 := replaceScan mXox REDACTED r2
  let r4 := replaceScan mTelegram REDACTED r3
  let r5 := replaceScan mAA REDACTED r4
  String.mk r5

/-- Result of a one-shot CLI invocation via `runCmd`. -/
structure RunRes where
  code : Int
  output : String
deriving DecidableEq

/-- An HTTP JSON reply of the console/pairing endpoints; `output` is the
command-output field when present. -/
structure ApiResp where
  status : Nat
  ok : Bool
  output : Option String
  error : Option String
deriving DecidableEq

/-- `SHELL_UNSAFE = /[&|;`$(){}!<>\\#\n\r]/` of the debug console (line
1002): the restricted-terminal set minus the two quote characters. -/
def consoleUnsafeCodes : List Nat :=
  [38, 124, 59, 96, 36, 40, 41, 123, 125, 33, 60, 62, 92, 35, 10, 13]

/-- `SHELL_UNSAFE.test(s)`. -/
def containsConsoleUnsafe (s : String) : Bool :=
  s.data.any fun c => consoleUnsafeCodes.contains c.toNat

/-- Lower-case ASCII letter. -/
def isLowerA (c : Char) : Bool := 0x61 ≤ c.toNat ∧ c.toNat ≤ 0x7a

/-- ASCII letter. -/
def isLetterA (c : Char) : Bool :=
  (0x41 ≤ c.toNat ∧ c.toNat ≤ 0x5a) ∨ isLowerA c

/-- Body class of `/^openclaw\.[a-z][a-z0-9._-]*$/i`: letters, digits,
dot, underscore, hyphen. -/
def consoleCmdBodyChar (c : Char) : Bool :=
  isAlnumA c ∨ c.toNat = 0x2e ∨ c.toNat = 0x5f ∨ c.toNat = 0x2d

/-- `isAllowedConsoleCmd` (lines 1004–1008): one of the three
`gateway.*` commands, or a case-insensitive match of
`/^openclaw\.[a-z][a-z0-9._-]*$/i`. -/
def isAllowedConsoleCmd (cmd : String) : Bool :=
  if cmd = "gateway.restart" ∨ cmd = "gateway.stop" ∨ cmd = "gateway.start"
  then true
  else
    match lowerL cmd.data with
    | 'o' :: 'p' :: 'e' :: 'n' :: 'c' :: 'l' :: 'a' :: 'w' :: '.' :: c :: rest =>
      isLowerA c ∧ rest.all consoleCmdBodyChar
    | _ => false

/-- Oracle for the side effects a console command can await: the result
of each CLI invocation, whether supervisor calls
(`restartGateway` / `ensureGatewayRunning`) throw, the `ok` flag of a
resolved `ensureGatewayRunning`, and the message of a thrown error. -/
structure ConsoleEnv where
  run : List String → RunRes
  superThrows : Bool
  ensureOk : Bool
  errMsg : String

/-- Split a character list at every dot (model of `s.split(".")`). -/
def splitDot : List Char → List Char → List (List Char)
  | [], acc => [acc.reverse]
  | c :: cs, acc =>
    if c.toNat = 46 then acc.reverse :: splitDot cs []
    else splitDot cs (c :: acc)

/-- Dotted-command translation of the generic `openclaw.*` fallback
(lines 1099–1105): drop the `openclaw.` prefix, split the rest on dots,
map `_` to `-` inside each part, special-case `version`, then append the
argument when non-empty. -/
def consoleFallbackArgs (cmd arg : String) : List String :=
  let rest := cmd.data.drop "openclaw.".length
  let parts := (splitDot rest []).map fun p =>
    String.mk (p.map fun c => if c = '_' then '-' else c)
  let cliArgs := if parts = ["version"] then ["--version"] else parts
  if arg = "" then cliArgs else cliArgs ++ [arg]

/-- String-level JavaScript trim. -/
def jsTrimS (s : String) : String := String.mk (jsTrimL s.data)

/-- Model of `Number.parseInt(s, 10)`: skip leading whitespace, optional
sign, then a non-empty decimal digit run; `none` is NaN. -/
def jsParseIntDec (s : String) : Option Int :=
  let cs := s.data.dropWhile jsWhite
  let signAndRest : Bool × List Char :=
    match cs with
    | '-' :: r => (true, r)
    | '+' :: r => (false, r)
    | r => (false, r)
  let ds := signAndRest.2.takeWhile isDigitA
  if ds.isEmpty then none
  else
    let v : Nat := ds.foldl (fun a c => a * 10 + (c.toNat - 48)) 0
    some (if signAndRest.1 then -(v : Int) else (v : Int))

/-- The line count of `openclaw.logs.tail` (line 1057):
`Math.max(50, Math.min(1000, Number.parseInt(arg || "200", 10) || 200))`
— an empty argument, NaN and 0 all fall back to 200. -/
def logsTailLines (arg : String) : Int :=
  let raw := if arg = "" then "200" else arg
  let v : Int :=
    match jsParseIntDec raw with
    | none => 200
    | some 0 => 200
    | some w => w
  max 50 (min 1000 v)

/-- JSON success/failure reply wrapping one redacted CLI output (the
common `res.status(r.code === 0 ? 200 : 500).json(...)` shape). -/
def cliResp (r : RunRes) : ApiResp :=
  ⟨if r.code = 0 then 200 else 500, r.code == 0,
   some (redactSecrets r.output), none⟩

/-- The `/^[A-Za-z0-9_-]+$/` identifier check used for device request
IDs and plugin names. -/
def validIdent (s : String) : Bool :=
  ¬s.data.isEmpty ∧ s.data.all classWordDash

/-- The dispatch of `POST /setup/api/console/run` on the already-trimmed
payload fields (lines 1015–1111): enforce the command allowlist and the
`SHELL_UNSAFE` denylist, then dispatch.  Every CLI output it returns
goes through `redactSecrets`; the `gateway.*` pseudo-commands return
fixed wrapper-generated strings. -/
def consoleRunT (cmd arg : String) (env : ConsoleEnv) : ApiResp :=
  if ¬isAllowedConsoleCmd cmd then
    ⟨400, false, none, some "Command not allowed. Must be gateway.* or openclaw.*"⟩
  else if containsConsoleUnsafe cmd ∨ containsConsoleUnsafe arg then
    ⟨400, false, none, some "Invalid characters in command or argument"⟩
  else if cmd = "gateway.restart" then
    if env.superThrows then ⟨500, false, none, some env.errMsg⟩
    else ⟨200, true, some "Gateway restarted (wrapper-managed).\n", none⟩
  else if cmd = "gateway.stop" then
    ⟨200, true, some "Gateway stopped (wrapper-managed).\n", none⟩
  else if cmd = "gateway.start" then
    if env.superThrows then ⟨500, false, none, some env.errMsg⟩
    else if env.ensureOk then ⟨200, true, some "Gateway started.\n", none⟩
    else ⟨200, true, some "Gateway not started: not configured\n", none⟩
  else if cmd = "openclaw.version" then cliResp (env.run ["--version"])
  else if cmd = "openclaw.status" then cliResp (env.run ["status"])
  else if cmd = "openclaw.health" then cliResp (env.run ["health"])
  else if cmd = "openclaw.doctor" then cliResp (env.run ["doctor"])
  else if cmd = "openclaw.logs.tail" then
    cliResp (env.run ["logs", "--tail", toString (logsTailLines arg)])
  else if cmd = "openclaw.config.get" then
    if arg = "" then ⟨400, false, none, some "Missing config path"⟩
    else cliResp (env.run ["config", "get", arg])
  else if cmd = "openclaw.devices.list" then
    cliResp (env.run ["devices", "list"])
  else if cmd = "openclaw.devices.approve" then
    if arg = "" then ⟨400, false, none, some "Missing device request ID"⟩
    else if ¬validIdent arg then
      ⟨400, false, none, some "Invalid device request ID"⟩
    else cliResp (env.run ["devices", "approve", arg])
  else if cmd = "openclaw.plugins.list" then
    cliResp (env.run ["plugins", "list"])
  else if cmd = "openclaw.plugins.enable" then
    if arg = "" then ⟨400, false, none, some "Missing plugin name"⟩
    else if ¬validIdent arg then
      ⟨400, false, none, some "Invalid plugin name"⟩
    else cliResp (env.run ["plugins", "enable", arg])
  else if cmd.data.take 9 = "openclaw.".data then
    cliResp (env.run (consoleFallbackArgs cmd arg))
  else ⟨400, false, none, some "Unhandled command"⟩

/-- The whole `POST /setup/api/console/run` handler (lines 1010–1112):
`String(payload.cmd || "").trim()` and the same for the argument, then
the dispatch. -/
def consoleRun (cmd0 arg0 : String) (env : ConsoleEnv) : ApiResp :=
  consoleRunT (jsTrimS cmd0) (jsTrimS arg0) env

/-- The fixed wrapper-generated output strings of the `gateway.*`
console branches. -/
def consoleWrapperLiterals : List String :=
  ["Gateway restarted (wrapper-managed).\n",
   "Gateway stopped (wrapper-managed).\n",
   "Gateway started.\n",
   "Gateway not started: not configured\n"]

/-- The `POST /setup/api/pairing/approve` handler (lines 1194–1201): on
a present channel and code it returns the CLI result's output verbatim —
`output: r.output`, with no `redactSecrets` call. -/
def pairingApprove (channel code : String) (r : RunRes) : ApiResp :=
  if channel = "" ∨ code = "" then
    ⟨400, false, none, some "Missing channel or code"⟩
  else ⟨if r.code = 0 then 200 else 500, r.code == 0, some r.output, none⟩

/-! ## Helper lemmas -/

/-- While an attempt is in flight (process spawned, not ready, `starting`
set), every further `ensureGatewayRunning` call leaves the state alone
and awaits that same attempt. -/
theorem ensureN_inflight (n : Nat) (s : SupSt) (id : Nat)
    (hc : s.configured = true) (hp : s.proc = true) (hr : s.ready = false)
    (hs : s.starting = some id) :
    ensureN n s = (s, List.replicate n (EnsResult.awaiting id)) := by
  induction n with
  | zero => simp [ensureN]
  | succ m ih =>
    have hstep : ensureStep s = (s, EnsResult.awaiting id) := by
      simp [ensureStep, hc, hp, hr, hs]
    simp [ensureN, hstep, ih, List.replicate_succ]

/-- The first `ensureGatewayRunning` call in a configured, no-process
state spawns once and registers the attempt. -/
theorem ensureStep_first (s : SupSt) (hc : s.configured = true)
    (hp : s.proc = false) (hr : s.ready = false) (hs : s.starting = none) :
    ensureStep s =
      ({ s with proc := true, starting := some s.nextAttempt,
                nextAttempt := s.nextAttempt + 1,
                spawnCount := s.spawnCount + 1 },
       EnsResult.awaiting s.nextAttempt) := by
  simp [ensureStep, hc, hp, hr, hs]

/-- One `ensureGatewayRunning` call spawns at most one subprocess. -/
theorem ensureStep_spawn_le (s : SupSt) :
    (ensureStep s).1.spawnCount ≤ s.spawnCount + 1 := by
  unfold ensureStep
  split_ifs <;> cases hs : s.starting <;> simp [hs]

/-- An `ensureGatewayRunning` call never touches the restart timer. -/
theorem ensureStep_restartTimer (s : SupSt) :
    (ensureStep s).1.restartTimer = s.restartTimer := by
  unfold ensureStep
  split_ifs <;> cases hs : s.starting <;> simp [hs]

/-- The exit handler never changes the spawn count. -/
theorem gatewayExitHandler_spawnCount (code : Option Int)
    (signal : Option String) (t : SupSt) :
    (gatewayExitHandler code signal t).1.spawnCount = t.spawnCount := by
  unfold gatewayExitHandler scheduleGatewayRestart
  split_ifs <;> rfl

/-- The stop phase of a restart never changes the spawn count. -/
theorem restartStopState_spawnCount (stop : StopOutcome) (code : Option Int)
    (signal : Option String) (s1 : SupSt) :
    (restartStopState stop code signal s1).spawnCount = s1.spawnCount := by
  cases stop
  · show (gatewayExitHandler code signal
      { s1 with intentionalKill := true }).1.spawnCount = s1.spawnCount
    rw [gatewayExitHandler_spawnCount]
  · rfl

/-- During the stop phase the exit handler runs with the intentional-kill
flag set, so it never arms the restart timer. -/
theorem restartStopState_restartTimer (stop : StopOutcome)
    (code : Option Int) (signal : Option String) (s1 : SupSt) :
    (restartStopState stop code signal s1).restartTimer = s1.restartTimer := by
  cases stop
  · show (gatewayExitHandler code signal
      { s1 with intentionalKill := true }).1.restartTimer = s1.restartTimer
    simp [gatewayExitHandler]
  · rfl

/-- `applyLineAction` never touches the input buffer. -/
theorem applyLineAction_buf (st : TermSt) (a : LineAction) :
    (applyLineAction st a).buf = st.buf := by
  cases a <;> rfl

/-- One step of the line editor preserves the only-printable-characters
buffer invariant. -/
theorem procEditChar_printable (st : TermSt) (c : Char)
    (h : ∀ x ∈ st.buf, 32 ≤ x.toNat) :
    ∀ x ∈ (procEditChar st c).buf, 32 ≤ x.toNat := by
  unfold procEditChar
  split_ifs with h1 h2 h3 h4 h5
  · rw [applyLineAction_buf]
    intro x hx
    simp at hx
  · intro x hx
    exact h x (List.dropLast_subset _ hx)
  · intro x hx
    simp at hx
  · intro x hx
    simp at hx
  · intro x hx
    rcases List.mem_append.mp hx with hx' | hx'
    · exact h x hx'
    · simp at hx'
      subst hx'
      exact h5
  · exact h

/-- The polling loop of `waitForGatewayReady` returns `died` at the first
iteration whose liveness check fails, consuming only the probes before
it. -/
theorem waitLoop_dies (alive probe : Nat → Bool) :
    ∀ (fuel i k : Nat),
      (∀ j, i ≤ j → j < k → alive j = true ∧ probe j = false) →
      alive k = false → i ≤ k → k < i + fuel →
      waitLoop alive probe fuel i = (.died, k) := by
  intro fuel
  induction fuel with
  | zero => intro i k _ _ _ hbound; omega
  | succ m ih =>
    intro i k hpre hdead hik hbound
    rcases Nat.eq_or_lt_of_le hik with rfl | hlt
    · unfold waitLoop
      simp [hdead]
    · have h0 := hpre i (le_refl i) hlt
      unfold waitLoop
      simp [h0.1, h0.2]
      exact ih (i + 1) k (fun j hj hjk => hpre j (by omega) hjk) hdead
        (by omega) (by omega)

/-- A line that makes the restricted terminal spawn a PTY necessarily
passed the openclaw allowlist test, and the spawned arguments are exactly
the tokens after the command name. -/
theorem processLine_spawn_shape (raw : List Char) (args : List (List Char))
    (h : processLine raw = .spawnPty args) :
    lineIsOpenclaw raw ∧ args = (lineTokens raw).tail := by
  unfold processLine at h
  split_ifs at h with h1 h2 h3 h4
  injection h with h'
  exact ⟨by tauto, h'.symm⟩

/-- A line executed as a gateway pseudo-command necessarily passed the
pseudo-command test. -/
theorem processLine_gateway_shape (raw : List Char) (cmd : String)
    (h : processLine raw = .gatewayExec cmd) : lineIsGatewayCmd raw := by
  unfold processLine at h
  split_ifs at h with h1 h2 h3 h4
  exact h4

/-- A trimmed line containing a character of the unsafe set is always
rejected (by the allowlist message or the unsafe-characters message). -/
theorem processLine_unsafe_reject (raw : List Char)
    (h : containsRestrictedUnsafe (jsTrimL raw) = true) :
    processLine raw = .rejectNotAllowed ∨
    processLine raw = .rejectUnsafe := by
  unfold processLine
  split_ifs with h1 h2
  · exfalso
    have hnil : jsTrimL raw = [] := by
      cases hd : jsTrimL raw
      · rfl
      · rw [hd] at h1
        simp at h1
    rw [hnil] at h
    simp [containsRestrictedUnsafe] at h
  · exact Or.inl rfl
  · exact Or.inr rfl

/-- The code's `looksSafeTarPath` accepts exactly the non-empty paths
that the spec-side predicate calls safe. -/
theorem looksSafeTarPath_iff (p : String) :
    looksSafeTarPathS p = true ↔ (¬specUnsafeTarPath p ∧ p ≠ "") := by
  unfold looksSafeTarPathS looksSafeTarPath specUnsafeTarPath
  split_ifs with h1 h2 h3 h4
  · refine ⟨fun h => absurd h (by simp), fun hR => ?_⟩
    exfalso
    apply hR.2
    apply String.ext
    cases hd : p.data
    · rfl
    · rw [hd] at h1
      simp at h1
  · exact ⟨fun h => absurd h (by simp), fun hR => absurd (by tauto) hR.1⟩
  · exact ⟨fun h => absurd h (by simp), fun hR => absurd (by tauto) hR.1⟩
  · exact ⟨fun h => absurd h (by simp), fun hR => absurd (by tauto) hR.1⟩
  · refine ⟨fun _ => ⟨?_, ?_⟩, fun _ => rfl⟩
    · rintro (h | h | h | h)
      · exact h2 (Or.inl h)
      · exact h2 (Or.inr h)
      · exact h3 h
      · exact h4 h
    · intro he
      apply h1
      rw [he]
      rfl

/-- Every output field the console dispatch produces is absent, a fixed
wrapper-generated string, or `redactSecrets` of some CLI output. -/
theorem consoleRunT_output (cmd arg : String) (env : ConsoleEnv) :
    (consoleRunT cmd arg env).output = none ∨
    (consoleRunT cmd arg env).output ∈ consoleWrapperLiterals.map some ∨
    ∃ args, (consoleRunT cmd arg env).output =
      some (redactSecrets (env.run args).output) := by
  unfold consoleRunT
  by_cases h1 : ¬isAllowedConsoleCmd cmd = true
  · rw [if_pos h1]
    exact Or.inl rfl
  rw [if_neg h1]
  by_cases h2 : containsConsoleUnsafe cmd = true ∨ containsConsoleUnsafe arg = true
  · rw [if_pos h2]
    exact Or.inl rfl
  rw [if_neg h2]
  by_cases h3 : cmd = "gateway.restart"
  · rw [if_pos h3]
    by_cases hx : env.superThrows = true
    · rw [if_pos hx]
      exact Or.inl rfl
    · rw [if_neg hx]
      exact Or.inr (Or.inl (by simp [consoleWrapperLiterals]))
  rw [if_neg h3]
  by_cases h4 : cmd = "gateway.stop"
  · rw [if_pos h4]
    exact Or.inr (Or.inl (by simp [consoleWrapperLiterals]))
  rw [if_neg h4]
  by_cases h5 : cmd = "gateway.start"
  · rw [if_pos h5]
    by_cases hx : env.superThrows = true
    · rw [if_pos hx]
      exact Or.inl rfl
    · rw [if_neg hx]
      by_cases hy : env.ensureOk = true
      · rw [if_pos hy]
        exact Or.inr (Or.inl (by simp [consoleWrapperLiterals]))
      · rw [if_neg hy]
        exact Or.inr (Or.inl (by simp [consoleWrapperLiterals]))
  rw [if_neg h5]
  by_cases h6 : cmd = "openclaw.version"
  · rw [if_pos h6]
    exact Or.inr (Or.inr ⟨_, rfl⟩)
  rw [if_neg h6]
  by_cases h7 : cmd = "openclaw.status"
  · rw [if_pos h7]
    exact Or.inr (Or.inr ⟨_, rfl⟩)
  rw [if_neg h7]
  by_cases h8 : cmd = "openclaw.health"
  · rw [if_pos h8]
    exact Or.inr (Or.inr ⟨_, rfl⟩)
  rw [if_neg h8]
  by_cases h9 : cmd = "openclaw.doctor"
  · rw [if_pos h9]
    exact Or.inr (Or.inr ⟨_, rfl⟩)
  rw [if_neg h9]
  by_cases h10 : cmd = "openclaw.logs.tail"
  · rw [if_pos h10]
    exact Or.inr (Or.inr ⟨_, rfl⟩)
  rw [if_neg h10]
  by_cases h11 : cmd = "openclaw.config.get"
  · rw [if_pos h11]
    by_cases hx : arg = ""
    · rw [if_pos hx]
      exact Or.inl rfl
    · rw [if_neg hx]
      exact Or.inr (Or.inr ⟨_, rfl⟩)
  rw [if_neg h11]
  by_cases h12 : cmd = "openclaw.devices.list"
  · rw [if_pos h12]
    exact Or.inr (Or.inr ⟨_, rfl⟩)
  rw [if_neg h12]
  by_cases h13 : cmd = "openclaw.devices.approve"
  · rw [if_pos h13]
    by_cases hx : arg = ""
    · rw [if_pos hx]
      exact Or.inl rfl
    · rw [if_neg hx]
      by_cases hy : ¬validIdent arg = true
      · rw [if_pos hy]
        exact Or.inl rfl
      · rw [if_neg hy]
        exact Or.inr (Or.inr ⟨_, rfl⟩)
  rw [if_neg h13]
  by_cases h14 : cmd = "openclaw.plugins.list"
  · rw [if_pos h14]
    exact Or.inr (Or.inr ⟨_, rfl⟩)
  rw [if_neg h14]
  by_cases h15 : cmd = "openclaw.plugins.enable"
  · rw [if_pos h15]
    by_cases hx : arg = ""
    · rw [if_pos hx]
      exact Or.inl rfl
    · rw [if_neg hx]
      by_cases hy : ¬validIdent arg = true
      · rw [if_pos hy]
        exact Or.inl rfl
      · rw [if_neg hy]
        exact Or.inr (Or.inr ⟨_, rfl⟩)
  rw [if_neg h15]
  by_cases h16 : cmd.data.take 9 = "openclaw.".data
  · rw [if_pos h16]
    exact Or.inr (Or.inr ⟨_, rfl⟩)
  rw [if_neg h16]
  exact Or.inl rfl

/-! ## Claim theorems -/

/-- C1.  For every set of N ≥ 1 back-to-back `ensureGatewayRunning` calls
arriving while the system is configured and no worker process exists,
exactly one subprocess is spawned (`spawnCount` rises by one), and all N
calls await the same in-flight attempt — each caller's result is
`awaiting` of the same attempt serial, so all observe that one attempt's
success or failure. -/
theorem C1_ensure_single_spawn (n : Nat) (s : SupSt) (hn : 1 ≤ n)
    (hc : s.configured = true) (hp : s.proc = false) (hr : s.ready = false)
    (hs : s.starting = none) :
    (ensureN n s).1.spawnCount = s.spawnCount + 1 ∧
    (ensureN n s).2 = List.replicate n (EnsResult.awaiting s.nextAttempt) := by
  obtain ⟨m, rfl⟩ : ∃ m, n = m + 1 := ⟨n - 1, by omega⟩
  have hstep := ensureStep_first s hc hp hr hs
  have hrest := ensureN_inflight m
    { s with proc := true, starting := some s.nextAttempt,
             nextAttempt := s.nextAttempt + 1,
             spawnCount := s.spawnCount + 1 }
    s.nextAttempt (by simpa using hc) (by simp) (by simpa using hr) (by simp)
  simp [ensureN, hstep, hrest, List.replicate_succ]

/-- Witness for C1 at a concrete state and N = 3. -/
theorem C1_ensure_single_spawn_witness :
    (ensureN 3 ⟨true, false, false, none, 0, 0, false, false, 0, none⟩).1.spawnCount = 1 ∧
    (ensureN 3 ⟨true, false, false, none, 0, 0, false, false, 0, none⟩).2 =
      List.replicate 3 (EnsResult.awaiting 0) :=
  C1_ensure_single_spawn 3 ⟨true, false, false, none, 0, 0, false, false, 0, none⟩
    (by decide) rfl rfl rfl rfl

/-- C5.  On any worker exit the ready flag is cleared, the process handle
nulled and `lastExit` recorded; `scheduleGatewayRestart` is invoked
exactly when the exit is unexpected (still configured, signal not
SIGTERM, code not 0, no intentional kill in progress); and a scheduling
request while a timer is already pending is a no-op, so at most one
restart timer is ever pending. -/
theorem C5_exit_handler (code : Option Int) (signal : Option String)
    (s : SupSt) :
    (gatewayExitHandler code signal s).1.ready = false ∧
    (gatewayExitHandler code signal s).1.proc = false ∧
    (gatewayExitHandler code signal s).1.lastExit = some (code, signal) ∧
    ((gatewayExitHandler code signal s).2 = true ↔
      (s.configured = true ∧ signal ≠ some "SIGTERM" ∧ code ≠ some 0 ∧
       s.intentionalKill = false)) ∧
    (s.restartTimer = true → scheduleGatewayRestart s = (s, none)) := by
  refine ⟨?_, ?_, ?_, ?_, ?_⟩
  · unfold gatewayExitHandler scheduleGatewayRestart
    split_ifs <;> rfl
  · unfold gatewayExitHandler scheduleGatewayRestart
    split_ifs <;> rfl
  · unfold gatewayExitHandler scheduleGatewayRestart
    split_ifs <;> rfl
  · unfold gatewayExitHandler
    split_ifs with h1 <;> simp_all
  · intro ht
    unfold scheduleGatewayRestart
    simp [ht]

/-- Witness for C5: an unexpected exit (code 1, configured, no kill in
progress) requests a restart, and scheduling while a timer is pending is
a no-op. -/
theorem C5_exit_handler_witness :
    (gatewayExitHandler (some 1) none
      ⟨true, true, true, none, 0, 1, false, true, 2, none⟩).1.ready = false ∧
    (gatewayExitHandler (some 1) none
      ⟨true, true, true, none, 0, 1, false, true, 2, none⟩).1.proc = false ∧
    (gatewayExitHandler (some 1) none
      ⟨true, true, true, none, 0, 1, false, true, 2, none⟩).1.lastExit =
        some (some 1, none) ∧
    ((gatewayExitHandler (some 1) none
      ⟨true, true, true, none, 0, 1, false, true, 2, none⟩).2 = true ↔
      ((true : Bool) = true ∧ (none : Option String) ≠ some "SIGTERM" ∧
       (some 1 : Option Int) ≠ some 0 ∧ (false : Bool) = false)) ∧
    ((true : Bool) = true → scheduleGatewayRestart
      ⟨true, true, true, none, 0, 1, false, true, 2, none⟩ =
      (⟨true, true, true, none, 0, 1, false, true, 2, none⟩, none)) :=
  C5_exit_handler (some 1) none ⟨true, true, true, none, 0, 1, false, true, 2, none⟩

/-- C6 counterexample.  The claim says the attempts counter is reset to 0
on any successful Ready transition.  Run the code from a configured,
running state: an unexpected exit (code 1) schedules a restart and sets
`attempts = 1`; the timer fires but its `ensureGatewayRunning` fails; a
later direct `ensureGatewayRunning` call succeeds — the line-340 success
path sets `_gatewayReady = true` without touching `_restartAttempts`, so
the state is Ready with `attempts = 1 ≠ 0`. -/
theorem C6_counterexample :
    (ensureDirectSuccess (restartTimerFire false
       (gatewayExitHandler (some 1) none
         ⟨true, true, true, none, 1, 1, false, false, 0, none⟩).1)).ready
      = true ∧
    (ensureDirectSuccess (restartTimerFire false
       (gatewayExitHandler (some 1) none
         ⟨true, true, true, none, 1, 1, false, false, 0, none⟩).1)).restartAttempts
      = 1 := by
  decide

/-- C6 (amended).  Every scheduled auto-restart uses
delay = min(2000·2^attempts, 60000); once attempts reaches 10 no further
auto-restart is scheduled; the counter is reset to 0 by an explicit
operator restart, by the pending restart timer's successful ensure, and
by a successful background probe — though not by the direct
`ensureGatewayRunning` success path. -/
theorem C6_backoff_policy :
    (∀ (s : SupSt) (d : Nat), (scheduleGatewayRestart s).2 = some d →
       d = min (2000 * 2 ^ s.restartAttempts) 60000) ∧
    (∀ s : SupSt, 10 ≤ s.restartAttempts →
       scheduleGatewayRestart s = (s, none)) ∧
    (∀ s : SupSt, (restartGatewayBegin s).restartAttempts = 0) ∧
    (∀ s : SupSt, (restartTimerFire true s).restartAttempts = 0) ∧
    (∀ s : SupSt, (bgProbeResult true s).restartAttempts = 0) := by
  refine ⟨?_, ?_, ?_, ?_, ?_⟩
  · intro s d h
    unfold scheduleGatewayRestart at h
    split_ifs at h with h1 h2
    simp [restartDelay, RESTART_BASE_DELAY_MS, RESTART_MAX_DELAY_MS] at h
    omega
  · intro s h
    unfold scheduleGatewayRestart
    split_ifs with h1 h2
    · rfl
    · rfl
    · exact absurd h (by simpa [RESTART_MAX_ATTEMPTS] using h2)
  · intro s; rfl
  · intro s; rfl
  · intro s; rfl

/-- Witness for C6 (amended) at attempts = 3: the scheduled delay is
16000 ms = min(2000·2³, 60000). -/
theorem C6_backoff_policy_witness :
    (scheduleGatewayRestart
      ⟨true, false, false, none, 0, 0, false, false, 3, none⟩).2 = some 16000 ∧
    (16000 : Nat) = min (2000 * 2 ^ 3) 60000 :=
  ⟨by decide,
   C6_backoff_policy.1 ⟨true, false, false, none, 0, 0, false, false, 3, none⟩
     16000 (by decide)⟩

/-- C7.  During readiness polling: if the process dies at iteration k
(every earlier iteration alive with a failing probe) the loop returns
`died` at exactly that iteration, regardless of how much timeout budget
remains; if the timeout elapses while the process is still alive, the
process is left untouched and a background probe is started; and a
successful background probe sets the ready flag and resets the restart
counter. -/
theorem C7_readiness_polling :
    (∀ (alive probe : Nat → Bool) (fuel k : Nat),
       (∀ j, j < k → alive j = true ∧ probe j = false) →
       alive k = false → k < fuel →
       waitLoop alive probe fuel 0 = (.died, k)) ∧
    (∀ s : SupSt, (ensureTimeoutBranch s).1 = s ∧
       (s.proc = true → (ensureTimeoutBranch s).2 = true)) ∧
    (∀ s : SupSt, (bgProbeResult true s).ready = true ∧
       (bgProbeResult true s).restartAttempts = 0) := by
  refine ⟨?_, ?_, ?_⟩
  · intro alive probe fuel k hpre hdead hk
    exact waitLoop_dies alive probe fuel 0 k (fun j _ hj => hpre j hj) hdead
      (Nat.zero_le k) (by omega)
  · intro s
    unfold ensureTimeoutBranch
    constructor
    · split_ifs <;> rfl
    · intro hp
      simp [hp]
  · intro s
    simp [bgProbeResult]

/-- Witness for C7: a process alive for two probe iterations and dead at
the third makes the loop fail after exactly two probes, well before the
ten-iteration budget. -/
theorem C7_readiness_polling_witness :
    waitLoop (fun j => decide (j < 2)) (fun _ => false) 10 0 =
      (WaitOutcome.died, 2) :=
  C7_readiness_polling.1 (fun j => decide (j < 2)) (fun _ => false) 10 2
    (by decide) (by decide) (by decide)

/-- C9 counterexample.  The claim says a restart observes the process's
exit — not merely a kill signal sent — before the next start begins.
Run `restartGateway` from a configured running state whose process never
emits an exit event within the 5 s SIGTERM window or the 3 s post-SIGKILL
window: the bounded wait resolves without any exit observed
(`proceededWithoutExit`) and the next start nevertheless begins — a new
attempt is registered and a new subprocess spawned. -/
theorem C9_counterexample :
    (restartGatewayModel none none none
       ⟨true, true, true, none, 0, 0, false, false, 0, none⟩).2.1 =
      some StopOutcome.proceededWithoutExit ∧
    (restartGatewayModel none none none
       ⟨true, true, true, none, 0, 0, false, false, 0, none⟩).2.2 =
      EnsResult.awaiting 0 ∧
    (restartGatewayModel none none none
       ⟨true, true, true, none, 0, 0, false, false, 0, none⟩).1.spawnCount
      = 1 := by
  decide

/-- C9 (amended).  A restart SIGTERMs the process and waits up to 5 s for
its exit, then SIGKILLs and waits up to 3 s more; whenever the process
exits within those windows (t ≤ 8000 ms) the exit is observed before the
next start begins; the bounded wait always resolves, and the whole
restart — here including its ensure phase — spawns at most one new
subprocess and leaves no restart timer pending. -/
theorem C9_restart_teardown :
    (∀ (t : Nat) (code : Option Int) (signal : Option String) (s : SupSt),
       s.proc = true → t ≤ 8000 →
       (restartGatewayModel (some t) code signal s).2.1 =
         some (StopOutcome.exitObserved t)) ∧
    (∀ (et : Option Nat) (code : Option Int) (signal : Option String)
       (s : SupSt),
       (restartGatewayModel et code signal s).1.spawnCount ≤
         s.spawnCount + 1) ∧
    (∀ (et : Option Nat) (code : Option Int) (signal : Option String)
       (s : SupSt),
       (restartGatewayModel et code signal s).1.restartTimer = false) := by
  refine ⟨?_, ?_, ?_⟩
  · intro t code signal s hp ht
    have hstop : awaitExitBounded (some t) = .exitObserved t := by
      simp only [awaitExitBounded]
      split_ifs <;> rfl
    have hp1 : (restartGatewayBegin s).proc = true := hp
    unfold restartGatewayModel
    rw [hstop]
    simp [hp1]
  · intro et code signal s
    unfold restartGatewayModel
    split_ifs with hp
    · calc (ensureStep (restartStopState (awaitExitBounded et) code signal
              (restartGatewayBegin s))).1.spawnCount
          ≤ (restartStopState (awaitExitBounded et) code signal
              (restartGatewayBegin s)).spawnCount + 1 := ensureStep_spawn_le _
        _ = s.spawnCount + 1 := by
            rw [restartStopState_spawnCount]
            rfl
    · calc (ensureStep (restartGatewayBegin s)).1.spawnCount
          ≤ (restartGatewayBegin s).spawnCount + 1 := ensureStep_spawn_le _
        _ = s.spawnCount + 1 := rfl
  · intro et code signal s
    unfold restartGatewayModel
    split_ifs with hp
    · rw [ensureStep_restartTimer, restartStopState_restartTimer]
      rfl
    · rw [ensureStep_restartTimer]
      rfl

/-- Witness for C9 (amended): a process exiting 1200 ms after SIGTERM has
its exit observed before the restart's start phase. -/
theorem C9_restart_teardown_witness :
    (restartGatewayModel (some 1200) (some 0) (some "SIGTERM")
       ⟨true, true, true, none, 0, 0, false, false, 0, none⟩).2.1 =
      some (StopOutcome.exitObserved 1200) :=
  C9_restart_teardown.1 1200 (some 0) (some "SIGTERM")
    ⟨true, true, true, none, 0, 0, false, false, 0, none⟩ rfl (by decide)

/-- C4 counterexample.  The claim says a proxied request arriving while
the ready flag is false is never forwarded without first awaiting
`ensureGatewayRunning` and succeeding.  But on an unconfigured system a
request whose path merely starts with `/setup` yet matches no setup
route (e.g. `GET /setup/nosuch`) skips both the redirect and the
readiness gate and is handed to `proxy.web` directly — forwarded with
the ready flag false and no ensure call. -/
theorem C4_counterexample :
    proxyWebHandler false true false false =
      WebDecision.forwardToGateway false := by
  decide

/-- C2 counterexample.  The claim says a PTY is spawned only if the first
whitespace-delimited token is the string `openclaw`.  But the code
compares `parts[0].toLowerCase()`, so the line `OPENCLAW status` — whose
first token is `OPENCLAW`, not `openclaw` — also spawns a PTY. -/
theorem C2_counterexample :
    processLineS "OPENCLAW status" = .spawnPty ["status".data] ∧
    (lineTokens "OPENCLAW status".data).headD [] = "OPENCLAW".data ∧
    "OPENCLAW".data ≠ "openclaw".data := by
  decide

/-- C2 (amended).  In the restricted terminal, a PTY subprocess is
spawned only if the first whitespace-delimited token lower-cases to
`openclaw` with at least one further argument (the case-insensitive
comparison being the amendment), and the spawned arguments are the
remaining tokens; a gateway pseudo-command branch runs only when the
lower-cased first token is one of the three pseudo-commands; any line
containing a character of the unsafe set is rejected with an error
message, the rejection leaving the session Idle (no spawn, no gateway
run, buffer untouched); in particular `openclaw config; rm -rf /` is
rejected as unsafe and `openclaw status` spawns exactly one PTY. -/
theorem C2_terminal_allowlist :
    (∀ (raw : List Char) (args : List (List Char)),
       processLine raw = .spawnPty args →
       lineIsOpenclaw raw ∧ args = (lineTokens raw).tail) ∧
    (∀ (raw : List Char) (cmd : String),
       processLine raw = .gatewayExec cmd → lineIsGatewayCmd raw) ∧
    (∀ raw : List Char, containsRestrictedUnsafe (jsTrimL raw) = true →
       processLine raw = .rejectNotAllowed ∨
       processLine raw = .rejectUnsafe) ∧
    (∀ (st : TermSt) (a : LineAction),
       a = .rejectNotAllowed ∨ a = .rejectUnsafe →
       (applyLineAction st a).spawns = st.spawns ∧
       (applyLineAction st a).gatewayRuns = st.gatewayRuns ∧
       (applyLineAction st a).buf = st.buf) ∧
    processLineS "openclaw config; rm -rf /" = .rejectUnsafe ∧
    (procEditString initTermSt "openclaw status\r".data).spawns =
      [["status".data]] := by
  refine ⟨processLine_spawn_shape, processLine_gateway_shape,
    processLine_unsafe_reject, ?_, by decide, by decide⟩
  rintro st a (rfl | rfl) <;> exact ⟨rfl, rfl, rfl⟩

/-- Witness for C2 (amended): the spawn of `openclaw status` satisfies
the allowlist shape. -/
theorem C2_terminal_allowlist_witness :
    lineIsOpenclaw "openclaw status".data ∧
    ["status".data] = (lineTokens "openclaw status".data).tail :=
  C2_terminal_allowlist.1 "openclaw status".data ["status".data] (by decide)

/-- C3.  During archive import the tar filter drops exactly the entries
whose path is empty or spec-unsafe (begins with `/`, `\` or a drive
prefix, or contains a `..` segment): unsafe entries are never in the
written set, safe non-empty entries always are, extraction succeeds
regardless of how many entries were filtered, and the three example
entries behave as claimed. -/
theorem C3_import_path_filter :
    (∀ p : String,
       looksSafeTarPathS p = true ↔ (¬specUnsafeTarPath p ∧ p ≠ "")) ∧
    (∀ (entries : List String) (p : String), specUnsafeTarPath p →
       p ∉ importWritten entries) ∧
    (∀ (entries : List String) (p : String), p ∈ entries →
       ¬specUnsafeTarPath p → p ≠ "" → p ∈ importWritten entries) ∧
    (∀ entries : List String,
       importExtract entries = .ok (importWritten entries)) ∧
    looksSafeTarPathS "../../etc/passwd" = false ∧
    looksSafeTarPathS "a/../../b" = false ∧
    looksSafeTarPathS "data/file.json" = true := by
  refine ⟨looksSafeTarPath_iff, ?_, ?_, fun _ => rfl, by decide, by decide,
    by decide⟩
  · intro entries p hp hmem
    rw [importWritten, List.mem_filter] at hmem
    exact ((looksSafeTarPath_iff p).mp hmem.2).1 hp
  · intro entries p hmem hsafe hne
    rw [importWritten, List.mem_filter]
    exact ⟨hmem, (looksSafeTarPath_iff p).mpr ⟨hsafe, hne⟩⟩

/-- Witness for C3: in a mixed archive the safe entry is written and the
traversal entry is not. -/
theorem C3_import_path_filter_witness :
    "data/file.json" ∈
      importWritten ["data/file.json", "../../etc/passwd"] ∧
    "../../etc/passwd" ∉
      importWritten ["data/file.json", "../../etc/passwd"] :=
  ⟨C3_import_path_filter.2.2.1 ["data/file.json", "../../etc/passwd"]
     "data/file.json" (by decide) (by decide) (by decide),
   C3_import_path_filter.2.1 ["data/file.json", "../../etc/passwd"]
     "../../etc/passwd" (by decide)⟩

/-- C10.  In line-editing mode the input buffer only ever holds
characters at or above the space character: the invariant is preserved by
every incoming message; DEL/BS drop exactly the last buffered character
and are a no-op on an empty buffer; Ctrl-C and Ctrl-U clear the buffer;
CR and LF submit (clearing the buffer); and every other control
character below space is silently discarded, leaving the whole session
state unchanged. -/
theorem C10_line_editor_invariant :
    (∀ (st : TermSt) (msg : List Char),
       (∀ c ∈ st.buf, 32 ≤ c.toNat) →
       ∀ c ∈ (procEditString st msg).buf, 32 ≤ c.toNat) ∧
    (∀ st : TermSt,
       (procEditChar st (Char.ofNat 127)).buf = st.buf.dropLast ∧
       (procEditChar st (Char.ofNat 8)).buf = st.buf.dropLast) ∧
    (∀ st : TermSt, st.buf = [] →
       (procEditChar st (Char.ofNat 127)).buf = []) ∧
    (∀ st : TermSt, (procEditChar st (Char.ofNat 3)).buf = [] ∧
       (procEditChar st (Char.ofNat 21)).buf = []) ∧
    (∀ st : TermSt, (procEditChar st (Char.ofNat 13)).buf = [] ∧
       (procEditChar st (Char.ofNat 10)).buf = []) ∧
    (∀ (st : TermSt) (c : Char), c.toNat < 32 →
       c.toNat ≠ 13 → c.toNat ≠ 10 → c.toNat ≠ 8 → c.toNat ≠ 3 →
       c.toNat ≠ 21 → procEditChar st c = st) := by
  refine ⟨?_, ?_, ?_, ?_, ?_, ?_⟩
  · intro st msg h
    induction msg generalizing st with
    | nil => exact h
    | cons c cs ih => exact ih (procEditChar st c) (procEditChar_printable st c h)
  · intro st
    exact ⟨rfl, rfl⟩
  · intro st hb
    rw [show (procEditChar st (Char.ofNat 127)).buf = st.buf.dropLast from rfl,
      hb]
    rfl
  · intro st
    exact ⟨rfl, rfl⟩
  · intro st
    constructor
    · show (applyLineAction { st with buf := [] } (processLine st.buf)).buf = []
      rw [applyLineAction_buf]
    · show (applyLineAction { st with buf := [] } (processLine st.buf)).buf = []
      rw [applyLineAction_buf]
  · intro st c hlt h13 h10 h8 h3 h21
    unfold procEditChar
    split_ifs with hA hB hC
    · rcases hA with h | h <;> omega
    · rcases hB with h | h <;> omega
    · exfalso
      omega
    · rfl

/-- Witness for C10: an unhandled control character (0x01) arriving at a
session with a buffered line leaves the session state untouched. -/
theorem C10_line_editor_invariant_witness :
    procEditChar ⟨"ab".data, [], [], 0⟩ (Char.ofNat 1) =
      ⟨"ab".data, [], [], 0⟩ :=
  C10_line_editor_invariant.2.2.2.2.2 ⟨"ab".data, [], [], 0⟩ (Char.ofNat 1)
    (by decide) (by decide) (by decide) (by decide) (by decide) (by decide)

/-- C8 counterexample.  The claim says every piece of worker-CLI output
returned over the HTTP surface first passes through `redactSecrets`.
But `POST /setup/api/pairing/approve` returns the CLI output verbatim:
for an output that is a recognizable API-key pattern the response
carries the secret unchanged, while `redactSecrets` would have replaced
it. -/
theorem C8_counterexample :
    (pairingApprove "telegram" "1234" ⟨0, "sk-ABCDEFGHIJK"⟩).output =
      some "sk-ABCDEFGHIJK" ∧
    redactSecrets "sk-ABCDEFGHIJK" = "[REDACTED]" ∧
    ("sk-ABCDEFGHIJK" : String) ≠ "[REDACTED]" := by
  decide

/-- C8 (amended).  Every CLI output returned by the debug-console run
endpoint is passed through `redactSecrets` (its only other outputs are
fixed wrapper-generated strings or absent), whereas the pairing-approve
endpoint returns CLI output verbatim, unredacted. -/
theorem C8_console_redaction :
    (∀ (cmd arg : String) (env : ConsoleEnv),
       (consoleRun cmd arg env).output = none ∨
       (consoleRun cmd arg env).output ∈ consoleWrapperLiterals.map some ∨
       ∃ args, (consoleRun cmd arg env).output =
         some (redactSecrets (env.run args).output)) ∧
    (∀ (channel code : String) (r : RunRes), channel ≠ "" → code ≠ "" →
       (pairingApprove channel code r).output = some r.output) := by
  constructor
  · intro cmd0 arg0 env
    show (consoleRunT (jsTrimS cmd0) (jsTrimS arg0) env).output = none ∨ _
    exact consoleRunT_output (jsTrimS cmd0) (jsTrimS arg0) env
  · intro channel code r hch hco
    simp [pairingApprove, hch, hco]

/-- Witness for C8 (amended): a failing pairing approval's output comes
back verbatim. -/
theorem C8_console_redaction_witness :
    (pairingApprove "discord" "9999" ⟨1, "boom"⟩).output = some "boom" :=
  C8_console_redaction.2 "discord" "9999" ⟨1, "boom"⟩ (by decide) (by decide)

/-- C4 (amended).  On a configured system, an HTTP request arriving while
the ready flag is false is forwarded only after an awaited
`ensureGatewayRunning` resolves, and otherwise receives a 503; a gateway
WebSocket upgrade is destroyed when unconfigured, and when not ready is
forwarded only after a successful ensure, otherwise destroyed; and the
proxy error handler always answers a backend-unreachable failure with a
502 or a destroyed socket — never leaving the client hanging.  The
unconfigured `/setup`-prefixed HTTP case is the one path forwarded
without the gate (it then resolves through the error handler). -/
theorem C4_proxy_readiness_gate :
    (∀ setupPath ensureOk : Bool,
       proxyWebHandler true setupPath false ensureOk =
         if ensureOk then WebDecision.forwardToGateway true
         else WebDecision.http503) ∧
    (∀ ready ensureOk : Bool,
       upgradeHandler false ready ensureOk = UpgradeDecision.destroy) ∧
    (∀ ensureOk : Bool,
       upgradeHandler true false ensureOk =
         if ensureOk then UpgradeDecision.forwardWs true
         else UpgradeDecision.destroy) ∧
    (∀ isHttpRes headersSent : Bool,
       proxyErrorHandler isHttpRes headersSent = ProxyErrReply.resp502 ∨
       proxyErrorHandler isHttpRes headersSent = ProxyErrReply.destroySocket) ∧
    (∀ configured setupPath ensureOk : Bool,
       proxyWebHandler configured setupPath false ensureOk =
           WebDecision.forwardToGateway false →
         configured = false ∧ setupPath = true) := by
  decide

/-- Witness for C4 (amended): a configured, not-ready request with a
succeeding ensure is forwarded after the gate, and the ungated
not-ready forward can only be the unconfigured `/setup`-prefixed case. -/
theorem C4_proxy_readiness_gate_witness :
    proxyWebHandler true false false true =
      (if true then WebDecision.forwardToGateway true
       else WebDecision.http503) ∧
    ((false : Bool) = false ∧ (true : Bool) = true) :=
  ⟨C4_proxy_readiness_gate.1 false true,
   C4_proxy_readiness_gate.2.2.2.2 false true false (by decide)⟩

end OpenClawWrapper
